import Mathlib

set_option maxRecDepth 8000

/-!
# Verification of the decider20 orchestration layer

Shallow embedding of the AI Gateway (`src/geminiService.ts`) and the Flow
Controller (`src/App.tsx`) of the decider20 repository, together with proofs
settling the frozen claims about them.

Conventions of the embedding:
* JavaScript strings are Lean `String`s; `String.prototype.includes` is
  `jsIncludes`, `String.prototype.trim` emptiness is `jsTrimIsEmpty`.
* A thrown `Error` is represented by its message (`Except String _`).
* The upstream generative model is an oracle `Nat → UpstreamOutcome α`
  giving the outcome of each attempt (attempt numbers are 0-indexed).
* `process.env.API_KEY` is an `Option String` argument resolved at each call.
* Each gateway call returns `(result, number of model attempts, backoff
  delays in milliseconds that were awaited between attempts)`.
-/

/-! ## JavaScript string primitives -/

/-- Occurrence of `pat` as a contiguous run inside a character list; this is
the semantics of JavaScript `String.prototype.includes`. -/
def subOccurs (pat : List Char) : List Char → Bool
  | [] => pat.isEmpty
  | c :: t => pat.isPrefixOf (c :: t) || subOccurs pat t

/-- JavaScript `s.includes(pat)`. -/
def jsIncludes (s pat : String) : Bool :=
  subOccurs pat.data s.data

/-- ASCII whitespace as recognised by JavaScript `trim` (the characters that
can occur in the strings this application handles). -/
def jsWsChar (c : Char) : Bool :=
  c == ' ' || c == '\t' || c == '\n' || c == '\r' || c == '\x0b' || c == '\x0c'

/-- JavaScript `s.trim() === ''`. -/
def jsTrimIsEmpty (s : String) : Bool :=
  s.data.all jsWsChar

/-! ## Credential resolution (`createAI`, src/geminiService.ts lines 129-135)

`createAI` reads `process.env.API_KEY` each time it is invoked and throws when
the key is `undefined`, the empty string, the literal string `'undefined'`, or
whitespace-only. -/

/-- Message thrown by `createAI` when no usable credential exists. -/
def missingKeyMsg : String :=
  "API 키가 설정되지 않았습니다. 환경 변수를 확인해주세요."

/-- The test `!apiKey || apiKey === 'undefined' || apiKey.trim() === ''`. -/
def credMissing : Option String → Bool
  | none => true
  | some k => k == "" || k == "undefined" || jsTrimIsEmpty k

/-- `createAI()`: fails fast when the credential is unusable.  The returned
`Unit` stands for the constructed client handle. -/
def createAI (env : Option String) : Except String Unit :=
  if credMissing env then Except.error missingKeyMsg else Except.ok ()

/-! ## Retry combinator (`callWithRetry`, src/geminiService.ts lines 140-164) -/

/-- The retryability test on a caught error's message:
`503`, `overloaded`, `429`, or `RESOURCE_EXHAUSTED` as a substring. -/
def isRetryableMsg (m : String) : Bool :=
  jsIncludes m "503" || jsIncludes m "overloaded" ||
  jsIncludes m "429" || jsIncludes m "RESOURCE_EXHAUSTED"

/-- The `for (let i = 0; i < maxRetries; i++)` loop of `callWithRetry`,
written structurally on the remaining iteration budget `rem = maxRetries - i`.
Returns `(outcome, attempts made, delays awaited in ms)`.  The `rem = 0` base
case corresponds to the dead `throw lastError` after the loop, reachable only
when `maxRetries = 0` (where `lastError` is still `undefined`). -/
def retryGo (fn : Nat → Except String α) (maxRetries i : Nat) :
    Nat → Except String α × Nat × List Nat
  | 0 => (Except.error "undefined", 0, [])
  | rem + 1 =>
    match fn i with
    | Except.ok v => (Except.ok v, 1, [])
    | Except.error e =>
      if isRetryableMsg e && decide (i < maxRetries - 1) then
        let r := retryGo fn maxRetries (i + 1) rem
        (r.1, r.2.1 + 1, 2 ^ i * 1000 :: r.2.2)
      else
        (Except.error e, 1, [])

/-- `callWithRetry(fn, maxRetries)`. -/
def callWithRetry (fn : Nat → Except String α) (maxRetries : Nat) :
    Except String α × Nat × List Nat :=
  retryGo fn maxRetries 0 maxRetries

/-! ## Domain data

`Question` is imported from `src/types.ts`, which is not shipped under `src/`;
its shape is fixed by the response schema declared in `generateQuestions`
(integer `id`, string `text`, array-of-string `options`) and by the spec's
data model. -/

/-- Modelled from the spec: the `Question` record of the missing `src/types.ts`
(`{ id: integer, text: string, options: sequence of strings }`), matching the
response schema declared in `generateQuestions`. -/
structure Question where
  id : Int
  text : String
  options : List String
  deriving DecidableEq, Repr

/-- The `AnalysisResult` interface exactly as declared in
src/geminiService.ts lines 207-215: seven fields, no `alternatives`, no
`refinedInsight`. -/
structure AnalysisResult where
  finalRecommendation : String
  summary : String
  reasoning : List String
  pros : List String
  cons : List String
  nextSteps : List String
  score : Int
  deriving DecidableEq, Repr

/-- Keys of the `responseSchema.properties` object declared for
`analyzeDecision` (src/geminiService.ts lines 242-251). -/
def analysisSchemaProperties : List String :=
  ["finalRecommendation", "summary", "reasoning", "pros", "cons", "nextSteps", "score"]

/-- The `required` list of that schema (src/geminiService.ts line 252). -/
def analysisSchemaRequired : List String :=
  ["finalRecommendation", "summary", "reasoning", "pros", "cons", "nextSteps", "score"]

/-- Outcome of one upstream `generateContent` attempt, as observed by the
gateway code: the API call throws, or returns empty text, or returns text that
fails `JSON.parse`, or returns text parsing to a payload `v`. -/
inductive UpstreamOutcome (α : Type) where
  | apiError (msg : String)
  | blocked
  | unparseable (msg : String)
  | payload (v : α)

/-! ## generateQuestions (src/geminiService.ts lines 166-205) -/

/-- Message thrown when `response.text` is empty in `generateQuestions`. -/
def genBlockedMsg : String :=
  "질문을 생성하는 도중 AI 응답이 차단되었습니다. (안전 정책 등)"

/-- Body of the closure `generateQuestions` passes to `callWithRetry`: the
parsed payload is returned verbatim (`return JSON.parse(response.text)`), and
no error is wrapped. -/
def fnGen (o : UpstreamOutcome (List Question)) : Except String (List Question) :=
  match o with
  | .apiError m => Except.error m
  | .blocked => Except.error genBlockedMsg
  | .unparseable m => Except.error m
  | .payload qs => Except.ok qs

/-- `generateQuestions(topic)`: `createAI()` first (before the retry loop),
then `callWithRetry` with 3 attempts.  The topic only influences the prompt,
which the oracle `model` abstracts. -/
def generateQuestionsCall (env : Option String)
    (model : Nat → UpstreamOutcome (List Question)) :
    Except String (List Question) × Nat × List Nat :=
  match createAI env with
  | Except.error m => (Except.error m, 0, [])
  | Except.ok _ => callWithRetry (fun i => fnGen (model i)) 3

/-! ## analyzeDecision (src/geminiService.ts lines 217-275) -/

/-- Message thrown when `response.text` is empty in `analyzeDecision`. -/
def analyzeEmptyMsg : String :=
  "분석 결과가 비어있습니다. 주제가 민감하여 차단되었을 수 있습니다."

/-- User-facing message the inner catch substitutes for quota errors. -/
def quotaUserMsg : String :=
  "API 사용량이 한도를 초과했습니다. 1분 뒤에 다시 시도해주세요."

/-- User-facing message the inner catch substitutes for overload errors. -/
def overloadUserMsg : String :=
  "현재 구글 AI 서버에 사용자가 너무 많아 처리가 지연되고 있습니다. 잠시 후 다시 시도해주세요."

/-- The inner `catch` of `analyzeDecision` (src/geminiService.ts lines
264-273): rewraps quota-looking and overload-looking messages, passes
everything else through. -/
def analyzeWrap (m : String) : String :=
  if jsIncludes m "429" || jsIncludes m "QUOTA" then quotaUserMsg
  else if jsIncludes m "503" || jsIncludes m "overloaded" then overloadUserMsg
  else m

/-- Body of the closure `analyzeDecision` passes to `callWithRetry`: every
throw inside the `try` (API error, empty text, parse failure) is routed
through the inner catch `analyzeWrap`; a parsed payload is returned verbatim. -/
def fnAnalyze (o : UpstreamOutcome AnalysisResult) : Except String AnalysisResult :=
  match o with
  | .apiError m => Except.error (analyzeWrap m)
  | .blocked => Except.error (analyzeWrap analyzeEmptyMsg)
  | .unparseable m => Except.error (analyzeWrap m)
  | .payload r => Except.ok r

/-- `analyzeDecision(topic, questions, answers)`: `createAI()` first, then
`callWithRetry` with 3 attempts over the wrapped closure. -/
def analyzeDecisionCall (env : Option String)
    (model : Nat → UpstreamOutcome AnalysisResult) :
    Except String AnalysisResult × Nat × List Nat :=
  match createAI env with
  | Except.error m => (Except.error m, 0, [])
  | Except.ok _ => callWithRetry (fun i => fnAnalyze (model i)) 3

/-! ## Shared evaluation lemmas -/

/-- A first-attempt payload makes `generateQuestions` succeed with exactly the
parsed payload, one attempt and no delay. -/
theorem gen_payload_ok (env : Option String)
    (model : Nat → UpstreamOutcome (List Question)) (qs : List Question)
    (henv : credMissing env = false) (h0 : model 0 = UpstreamOutcome.payload qs) :
    generateQuestionsCall env model = (Except.ok qs, 1, []) := by
  simp [generateQuestionsCall, createAI, henv, callWithRetry, retryGo, h0, fnGen]

/-- A first-attempt payload makes `analyzeDecision` succeed with exactly the
parsed payload, one attempt and no delay. -/
theorem analyze_payload_ok (env : Option String)
    (model : Nat → UpstreamOutcome AnalysisResult) (r : AnalysisResult)
    (henv : credMissing env = false) (h0 : model 0 = UpstreamOutcome.payload r) :
    analyzeDecisionCall env model = (Except.ok r, 1, []) := by
  simp [analyzeDecisionCall, createAI, henv, callWithRetry, retryGo, h0, fnAnalyze]

/-- Whenever the retry loop is entered with a positive budget, at least one
attempt is made. -/
theorem retryGo_attempts_pos (fn : Nat → Except String α) (mr i rem : Nat) :
    1 ≤ (retryGo fn mr i (rem + 1)).2.1 := by
  cases hf : fn i with
  | ok v => simp [retryGo, hf]
  | error e =>
    simp only [retryGo, hf]
    split
    · simp
    · simp

/-! ## Claim C2: retry policy of the gateway operations -/

/-- C2: For every gateway operation (both are `callWithRetry _ 3` once the
credential check has passed): three consecutive failures of the underlying
call whose messages carry a retryable signature yield exactly 3 attempts with
backoff delays of 1000 ms then 2000 ms and surface the last error; a
first failure without a retryable signature yields exactly 1 attempt, no
delay, and propagates unchanged; a retryable failure followed by a success
yields the success after one 1000 ms delay. -/
theorem c2_retry_policy {α : Type} (fn : Nat → Except String α) (e0 e1 e2 : String)
    (h0 : fn 0 = Except.error e0) (hr0 : isRetryableMsg e0 = true)
    (h1 : fn 1 = Except.error e1) (hr1 : isRetryableMsg e1 = true)
    (h2 : fn 2 = Except.error e2) :
    callWithRetry fn 3 = (Except.error e2, 3, [1000, 2000])
    ∧ (∀ (g : Nat → Except String α) (e : String),
        g 0 = Except.error e → isRetryableMsg e = false →
        callWithRetry g 3 = (Except.error e, 1, []))
    ∧ (∀ (g : Nat → Except String α) (e : String) (v : α),
        g 0 = Except.error e → isRetryableMsg e = true → g 1 = Except.ok v →
        callWithRetry g 3 = (Except.ok v, 2, [1000]))
    ∧ (∀ (env : Option String) (m : Nat → UpstreamOutcome (List Question)),
        credMissing env = false →
        generateQuestionsCall env m = callWithRetry (fun i => fnGen (m i)) 3)
    ∧ (∀ (env : Option String) (m : Nat → UpstreamOutcome AnalysisResult),
        credMissing env = false →
        analyzeDecisionCall env m = callWithRetry (fun i => fnAnalyze (m i)) 3) := by
  refine ⟨?_, ?_, ?_, ?_, ?_⟩
  · simp [callWithRetry, retryGo, h0, h1, h2, hr0, hr1]
  · intro g e hg hne
    simp [callWithRetry, retryGo, hg, hne]
  · intro g e v hg hre hg1
    simp [callWithRetry, retryGo, hg, hre, hg1]
  · intro env m henv
    simp [generateQuestionsCall, createAI, henv]
  · intro env m henv
    simp [analyzeDecisionCall, createAI, henv]

/-- Witness for `c2_retry_policy`: three `503` overload failures produce
3 attempts, delays of 1 s then 2 s, and surface the last error. -/
theorem c2_retry_policy_witness :
    callWithRetry (fun _ => (Except.error "503 overloaded" : Except String Nat)) 3
      = (Except.error "503 overloaded", 3, [1000, 2000]) :=
  (c2_retry_policy (fun _ => (Except.error "503 overloaded" : Except String Nat))
    "503 overloaded" "503 overloaded" "503 overloaded"
    rfl (by decide) rfl (by decide) rfl).1

/-! ## Claim C3: quota failures during analyzeDecision

The claim states a quota-signature failure (`429` / `RESOURCE_EXHAUSTED`) in
`analyzeDecision` is classified retryable and retried.  In the code the inner
catch of `analyzeDecision` rewraps any message containing `429` or `QUOTA`
into `quotaUserMsg` *before* `callWithRetry` sees it; `quotaUserMsg` contains
none of the four retryable signatures, so the retry classifier rejects it and
the loop makes exactly one attempt with no backoff delay.  This contradicts
the documentation comment on `callWithRetry` itself (src/geminiService.ts
lines 137-139), which says 429 quota exhaustion is retried with exponential
backoff. -/

/-- C3: an upstream quota failure whose message is
`"429 RESOURCE_EXHAUSTED: quota exceeded"` carries a retryable signature, yet
`analyzeDecision` makes exactly 1 attempt with no delay and surfaces the
rewrapped user message, because the rewrapped message no longer carries any
retryable signature. -/
theorem c3_quota_wrapped_not_retried :
    isRetryableMsg "429 RESOURCE_EXHAUSTED: quota exceeded" = true
    ∧ analyzeDecisionCall (some "valid-key")
        (fun _ => UpstreamOutcome.apiError "429 RESOURCE_EXHAUSTED: quota exceeded")
        = (Except.error quotaUserMsg, 1, [])
    ∧ isRetryableMsg quotaUserMsg = false := by
  refine ⟨by decide, ?_, by decide⟩
  have hwrap : analyzeWrap "429 RESOURCE_EXHAUSTED: quota exceeded" = quotaUserMsg := by
    decide
  simp [analyzeDecisionCall, createAI, credMissing, jsTrimIsEmpty, jsWsChar,
    callWithRetry, retryGo, fnAnalyze, hwrap]
  decide

/-! ## Claim C1: question ids are not reassigned

`generateQuestions` ends with `return JSON.parse(response.text)`: the parsed
payload is returned verbatim, model-supplied ids and all.  No renumbering
pass exists anywhere in src/. -/

/-- C1 counterexample: a successful `generateQuestions` call whose parsed
payload carries the duplicate ids `[7, 7]` returns those ids unchanged, not
the sequential ids `[1, 2]` the claim requires. -/
theorem c1_ids_verbatim_ce :
    generateQuestionsCall (some "valid-key")
      (fun _ => UpstreamOutcome.payload
        [Question.mk 7 "q1" ["a", "b", "c"], Question.mk 7 "q2" ["a", "b", "c"]])
      = (Except.ok [Question.mk 7 "q1" ["a", "b", "c"], Question.mk 7 "q2" ["a", "b", "c"]],
          1, [])
    ∧ [Question.mk 7 "q1" ["a", "b", "c"], Question.mk 7 "q2" ["a", "b", "c"]].map Question.id
        = [7, 7]
    ∧ [(7 : Int), 7] ≠ [1, 2] := by
  refine ⟨?_, by decide, by decide⟩
  exact gen_payload_ok _ _ _ (by decide) rfl

/-- C1 amended: every successful `generateQuestions` call returns the parsed
payload verbatim, so the returned ids are exactly the model-supplied ids (with
whatever gaps or duplicates they contain); no sequential reassignment occurs. -/
theorem c1_ids_preserved (env : Option String)
    (model : Nat → UpstreamOutcome (List Question)) (qs : List Question)
    (henv : credMissing env = false) (h0 : model 0 = UpstreamOutcome.payload qs) :
    ∃ r, (generateQuestionsCall env model).1 = Except.ok r
      ∧ r.map Question.id = qs.map Question.id := by
  exact ⟨qs, by rw [gen_payload_ok env model qs henv h0], rfl⟩

/-- Witness for `c1_ids_preserved` at the id list `[3, 9]`. -/
theorem c1_ids_preserved_witness :
    ∃ r, (generateQuestionsCall (some "k")
        (fun _ => UpstreamOutcome.payload
          [Question.mk 3 "t1" ["x", "y", "z"], Question.mk 9 "t2" ["x", "y", "z"]])).1
      = Except.ok r
      ∧ r.map Question.id
        = [Question.mk 3 "t1" ["x", "y", "z"], Question.mk 9 "t2" ["x", "y", "z"]].map
            Question.id :=
  c1_ids_preserved (some "k") _ _ (by decide) rfl

/-! ## Claim C5: the question count is not validated

The prompt asks the model for "exactly 20" questions, but the gateway performs
no length check on the parsed payload: any length is returned as-is. -/

/-- C5 counterexample: a successful `generateQuestions` call whose parsed
payload has 3 questions returns a sequence of length 3, outside `[5, 20]`. -/
theorem c5_length_unchecked_ce :
    generateQuestionsCall (some "valid-key")
      (fun _ => UpstreamOutcome.payload
        [Question.mk 1 "a" ["o1", "o2", "o3"], Question.mk 2 "b" ["o1", "o2", "o3"],
         Question.mk 3 "c" ["o1", "o2", "o3"]])
      = (Except.ok [Question.mk 1 "a" ["o1", "o2", "o3"], Question.mk 2 "b" ["o1", "o2", "o3"],
          Question.mk 3 "c" ["o1", "o2", "o3"]], 1, [])
    ∧ ¬ (5 ≤ ([Question.mk 1 "a" ["o1", "o2", "o3"], Question.mk 2 "b" ["o1", "o2", "o3"],
          Question.mk 3 "c" ["o1", "o2", "o3"]] : List Question).length) := by
  refine ⟨?_, by decide⟩
  exact gen_payload_ok _ _ _ (by decide) rfl

/-- C5 amended: a successful `generateQuestions` call returns a sequence whose
length is exactly the parsed payload's length; no `[5, 20]` bound (nor any
bound) is enforced by the gateway. -/
theorem c5_length_passthrough (env : Option String)
    (model : Nat → UpstreamOutcome (List Question)) (qs : List Question)
    (henv : credMissing env = false) (h0 : model 0 = UpstreamOutcome.payload qs) :
    ∃ r, (generateQuestionsCall env model).1 = Except.ok r ∧ r.length = qs.length := by
  exact ⟨qs, by rw [gen_payload_ok env model qs henv h0], rfl⟩

/-- Witness for `c5_length_passthrough` with a single-question payload. -/
theorem c5_length_passthrough_witness :
    ∃ r, (generateQuestionsCall (some "k")
        (fun _ => UpstreamOutcome.payload [Question.mk 1 "only" ["a", "b", "c"]])).1
      = Except.ok r
      ∧ r.length = ([Question.mk 1 "only" ["a", "b", "c"]] : List Question).length :=
  c5_length_passthrough (some "k") _ _ (by decide) rfl

/-! ## Claim C6: the analysis result is not validated and has no alternatives

`analyzeDecision` ends with `return JSON.parse(cleanJson)`: no range check on
`score`, and the declared response schema (and the `AnalysisResult` interface)
contain no `alternatives` key at all. -/

/-- C6 counterexample: a successful `analyzeDecision` call whose parsed
payload carries `score = 150` returns it unchanged (150 is outside `[1, 100]`),
and `alternatives` is neither among the schema's declared properties nor its
required keys, so nothing makes the field present. -/
theorem c6_score_unvalidated_ce :
    analyzeDecisionCall (some "valid-key")
      (fun _ => UpstreamOutcome.payload (AnalysisResult.mk "추천" "요약" [] [] [] [] 150))
      = (Except.ok (AnalysisResult.mk "추천" "요약" [] [] [] [] 150), 1, [])
    ∧ ¬ ((AnalysisResult.mk "추천" "요약" [] [] [] [] 150).score ≤ 100)
    ∧ "alternatives" ∉ analysisSchemaProperties
    ∧ "alternatives" ∉ analysisSchemaRequired := by
  refine ⟨?_, by decide, by decide, by decide⟩
  exact analyze_payload_ok _ _ _ (by decide) rfl

/-- C6 amended: a successful `analyzeDecision` call returns the parsed payload
verbatim — `score` is whatever number the model supplied, with no `[1, 100]`
validation — and the declared response schema neither lists nor requires an
`alternatives` key, so the parsed result carries no alternatives. -/
theorem c6_parse_passthrough (env : Option String)
    (model : Nat → UpstreamOutcome AnalysisResult) (a : AnalysisResult)
    (henv : credMissing env = false) (h0 : model 0 = UpstreamOutcome.payload a) :
    (analyzeDecisionCall env model).1 = Except.ok a
    ∧ "alternatives" ∉ analysisSchemaProperties
    ∧ "alternatives" ∉ analysisSchemaRequired := by
  refine ⟨by rw [analyze_payload_ok env model a henv h0], by decide, by decide⟩

/-- Witness for `c6_parse_passthrough` at a payload with `score = 0`. -/
theorem c6_parse_passthrough_witness :
    (analyzeDecisionCall (some "k")
        (fun _ => UpstreamOutcome.payload (AnalysisResult.mk "r" "s" [] [] [] [] 0))).1
      = Except.ok (AnalysisResult.mk "r" "s" [] [] [] [] 0)
    ∧ "alternatives" ∉ analysisSchemaProperties
    ∧ "alternatives" ∉ analysisSchemaRequired :=
  c6_parse_passthrough (some "k") _ _ (by decide) rfl

/-! ## Prompt construction of analyzeDecision (src/geminiService.ts lines 220-232) -/

/-- JavaScript `Array.prototype.join(sep)`. -/
def joinSep (sep : String) : List String → String
  | [] => ""
  | [x] => x
  | x :: y :: t => x ++ sep ++ joinSep sep (y :: t)

/-- The answer text substituted into a transcript block:
`answers[q.id] || "답변 없음"` (both a missing key and an empty-string answer
are falsy and fall back to the "no answer" marker). -/
def answerText (answers : Int → Option String) (qid : Int) : String :=
  match answers qid with
  | some a => if a = "" then "답변 없음" else a
  | none => "답변 없음"

/-- One transcript block: `질문: ${q.text}\n답변: ${answers[q.id] || "답변 없음"}`. -/
def qaBlock (answers : Int → Option String) (q : Question) : String :=
  "질문: " ++ q.text ++ "\n답변: " ++ answerText answers q.id

/-- `const context = questions.map(...).join('\n\n')`. -/
def analysisContext (questions : List Question) (answers : Int → Option String) : String :=
  joinSep "\n\n" (questions.map (qaBlock answers))

/-- Template text before the interpolated topic. -/
def analysisPromptPre : String :=
  "당신은 세계 최고의 의사결정 컨설턴트입니다.\n사용자의 주제: \""

/-- Template text between the topic and the interpolated transcript. -/
def analysisPromptMid : String :=
  "\"\n\n아래는 사용자가 20가지 질문에 대해 응답한 내용입니다:\n"

/-- Template text after the transcript. -/
def analysisPromptPost : String :=
  "\n\n위 답변들을 철저히 분석하여, 사용자가 최선의 선택을 내릴 수 있도록 전문적인 리포트를 작성하세요.\n한국어로 작성하고, 마크다운 기호를 사용하지 마세요."

/-- The prompt `analyzeDecision` builds from its three parameters. -/
def buildAnalysisPrompt (topic : String) (questions : List Question)
    (answers : Int → Option String) : String :=
  analysisPromptPre ++ topic ++ analysisPromptMid
    ++ analysisContext questions answers ++ analysisPromptPost

/-- The prompt resulting from an invocation
`analyzeDecision(topic, questions, answers, additionalInput, targetAlternative)`
as `App.tsx`'s `handleRefineAnalysis` and `switchToAlternative` perform it:
`analyzeDecision` declares only three parameters (src/geminiService.ts line
217), so JavaScript discards the extra arguments and the prompt is built from
topic, questions and answers alone. -/
def analyzeDecisionPromptOf (topic : String) (questions : List Question)
    (answers : Int → Option String)
    (additionalInput targetAlternative : Option String) : String :=
  buildAnalysisPrompt topic questions answers

/-- String concatenation is associative (via the underlying character lists). -/
theorem strAppendAssoc (a b c : String) : (a ++ b) ++ c = a ++ (b ++ c) := by
  apply String.ext
  simp [String.data_append]

/-! ## Claim C4: the prompt embeds topic and transcript, but the refinement
arguments are ignored -/

/-- C4 counterexample: the prompt of a refine invocation carrying
`additionalInput = "거리가 더 중요해요"` is byte-identical to the prompt of the
plain invocation and does not contain the additional-consideration text at
all; likewise the prompt of a switch-to-alternative invocation with title
`"B안"` does not mention that title. -/
theorem c4_refine_ignored_ce :
    analyzeDecisionPromptOf "이직 여부" [Question.mk 1 "Q1" ["a", "b"]]
        (fun _ => none) (some "거리가 더 중요해요") none
      = analyzeDecisionPromptOf "이직 여부" [Question.mk 1 "Q1" ["a", "b"]]
        (fun _ => none) none none
    ∧ jsIncludes (analyzeDecisionPromptOf "이직 여부" [Question.mk 1 "Q1" ["a", "b"]]
        (fun _ => none) (some "거리가 더 중요해요") none) "거리가 더 중요해요" = false
    ∧ jsIncludes (analyzeDecisionPromptOf "이직 여부" [Question.mk 1 "Q1" ["a", "b"]]
        (fun _ => none) none (some "B안")) "B안" = false := by
  refine ⟨rfl, by decide, by decide⟩

/-- C4 amended: the constructed prompt embeds the topic and a transcript with
one `질문/답변` block per question in question order, substituting the
`답변 없음` marker for missing answers; the `additionalInput` and
`targetAlternative` arguments supplied by the callers are ignored (the prompt
is independent of them), so no additional-consideration block and no
retargeting instruction is ever added. -/
theorem c4_prompt_shape (topic : String) (qs : List Question)
    (ans : Int → Option String) (aInp tAlt : Option String) :
    analyzeDecisionPromptOf topic qs ans aInp tAlt
      = analysisPromptPre ++ topic ++ analysisPromptMid
          ++ joinSep "\n\n" (qs.map (qaBlock ans)) ++ analysisPromptPost
    ∧ (∃ pre post, analyzeDecisionPromptOf topic qs ans aInp tAlt = pre ++ (topic ++ post))
    ∧ (∀ qid, ans qid = none → answerText ans qid = "답변 없음")
    ∧ (∀ aInp2 tAlt2 : Option String,
        analyzeDecisionPromptOf topic qs ans aInp tAlt
          = analyzeDecisionPromptOf topic qs ans aInp2 tAlt2) := by
  refine ⟨rfl, ?_, ?_, fun _ _ => rfl⟩
  · refine ⟨analysisPromptPre,
      analysisPromptMid ++ analysisContext qs ans ++ analysisPromptPost, ?_⟩
    simp only [analyzeDecisionPromptOf, buildAnalysisPrompt, strAppendAssoc]
  · intro qid hq
    simp [answerText, hq]

/-- Witness for `c4_prompt_shape` at a concrete refine invocation. -/
theorem c4_prompt_shape_witness :
    analyzeDecisionPromptOf "주제" [Question.mk 2 "질문2" ["x"]] (fun _ => none)
        (some "추가") (some "대안")
      = analysisPromptPre ++ "주제" ++ analysisPromptMid
          ++ joinSep "\n\n" ([Question.mk 2 "질문2" ["x"]].map (qaBlock (fun _ => none)))
          ++ analysisPromptPost
    ∧ answerText (fun _ => none) 2 = "답변 없음"
    ∧ analyzeDecisionPromptOf "주제" [Question.mk 2 "질문2" ["x"]] (fun _ => none)
        (some "추가") (some "대안")
      = analyzeDecisionPromptOf "주제" [Question.mk 2 "질문2" ["x"]] (fun _ => none)
        none none := by
  refine ⟨(c4_prompt_shape "주제" _ _ (some "추가") (some "대안")).1,
    (c4_prompt_shape "주제" [Question.mk 2 "질문2" ["x"]] (fun _ => none)
      (some "추가") (some "대안")).2.2.1 2 rfl,
    (c4_prompt_shape "주제" _ _ (some "추가") (some "대안")).2.2.2 none none⟩

/-! ## Flow Controller (src/App.tsx)

The React state variables form the session; each UI handler is an atomic step
(the app is single-actor: one call in flight, committed before the next
action).  Actions carry the credential and model oracle their gateway call
would observe.  An action whose triggering control is not rendered (or is
disabled) in the current stage leaves the state unchanged. -/

/-- Modelled from the spec: the `AppStage` enum of the missing `src/types.ts`
(START, GENERATING_QUESTIONS, ANSWERING, ANALYZING, RESULT). -/
inductive AppStage where
  | START
  | GENERATING_QUESTIONS
  | ANSWERING
  | ANALYZING
  | RESULT
  deriving DecidableEq, Repr

/-- The session state held by the `useState` hooks of `App`
(presentation-only fields `loadingMessage` and `isRefining` omitted).
`answers` is the `Record<number, string>` answer map. -/
structure Session where
  stage : AppStage
  topic : String
  questions : List Question
  answers : Int → Option String
  currentIndex : Nat
  analysis : Option AnalysisResult
  error : Option String
  additionalInput : String

/-- The initial state of the `useState` hooks. -/
def initialSession : Session :=
  { stage := AppStage.START
    topic := ""
    questions := []
    answers := fun _ => none
    currentIndex := 0
    analysis := none
    error := none
    additionalInput := "" }

/-- The object spread `{ ...prev, [id]: option }`. -/
def answersInsert (m : Int → Option String) (k : Int) (v : String) :
    Int → Option String :=
  fun k2 => if k2 = k then some v else m k2

/-- `handleError` (src/App.tsx lines 541-549): `err.message || fallback`, then
quota-signature substitution. -/
def handleErrorMsg (m fallback : String) : String :=
  let msg := if m = "" then fallback else m
  if jsIncludes msg "Quota" || jsIncludes msg "429" || jsIncludes msg "RESOURCE_EXHAUSTED" then
    "무료 사용 한도를 초과했습니다. 1분 뒤 다시 시도하거나 유료 API 키를 설정해주세요."
  else msg

/-- Typing in the topic textarea (rendered in START only). -/
def editTopicStep (t : String) (s : Session) : Session :=
  if s.stage = AppStage.START then { s with topic := t } else s

/-- `startDecisionProcess` (src/App.tsx lines 477-492): guard
`if (!topic.trim()) return`, then generate; on success enter ANSWERING with
`currentIndex = 0`; on failure return to START with the error attached. -/
def submitStep (env : Option String) (model : Nat → UpstreamOutcome (List Question))
    (s : Session) : Session :=
  if s.stage = AppStage.START ∧ jsTrimIsEmpty s.topic = false then
    match (generateQuestionsCall env model).1 with
    | Except.ok qs =>
      { s with error := none, stage := AppStage.ANSWERING, questions := qs, currentIndex := 0 }
    | Except.error e =>
      { s with error := some (handleErrorMsg e "질문 생성 중 문제가 발생했습니다."),
               stage := AppStage.START }
  else s

/-- `handleAnswer` (src/App.tsx lines 494-496): record the selected option
under the current question's id.  Its buttons are rendered only in the
ANSWERING view, which requires `questions.length > 0`. -/
def answerStep (opt : String) (s : Session) : Session :=
  if s.stage = AppStage.ANSWERING ∧ 0 < s.questions.length then
    match s.questions.get? s.currentIndex with
    | some q => { s with answers := answersInsert s.answers q.id opt }
    | none => s
  else s

/-- The `disabled={!answers[questions[currentIndex].id]}` guard of the next
button: an answer for the current question exists and is truthy. -/
def answerPresent (s : Session) : Bool :=
  match s.questions.get? s.currentIndex with
  | some q => !(((s.answers q.id).getD "") == "")
  | none => false

/-- `finishAnswering` (src/App.tsx lines 512-523): clear the error, enter
ANALYZING, call `analyzeDecision`; on success store the analysis and enter
RESULT; on failure attach the error and deliberately stay in ANALYZING. -/
def finishAnswering (env : Option String) (model : Nat → UpstreamOutcome AnalysisResult)
    (s : Session) : Session :=
  let s1 := { s with error := none, stage := AppStage.ANALYZING }
  match (analyzeDecisionCall env model).1 with
  | Except.ok r => { s1 with analysis := some r, stage := AppStage.RESULT }
  | Except.error e =>
    { s1 with error := some (handleErrorMsg e "최종 분석 중 문제가 발생했습니다.") }

/-- `handleNext` (src/App.tsx lines 498-504) behind its rendered/enabled
guards: advance while not on the last question, otherwise finish answering. -/
def nextStep (env : Option String) (model : Nat → UpstreamOutcome AnalysisResult)
    (s : Session) : Session :=
  if s.stage = AppStage.ANSWERING ∧ 0 < s.questions.length ∧ answerPresent s = true then
    if s.currentIndex < s.questions.length - 1 then
      { s with currentIndex := s.currentIndex + 1 }
    else
      finishAnswering env model s
  else s

/-- `handlePrev` (src/App.tsx lines 506-510) behind its rendered guard:
decrement while positive. -/
def prevStep (s : Session) : Session :=
  if s.stage = AppStage.ANSWERING ∧ 0 < s.questions.length then
    if 0 < s.currentIndex then { s with currentIndex := s.currentIndex - 1 } else s
  else s

/-- The retry button of the ANALYZING error view re-invokes
`finishAnswering`. -/
def retryStep (env : Option String) (model : Nat → UpstreamOutcome AnalysisResult)
    (s : Session) : Session :=
  if s.stage = AppStage.ANALYZING then finishAnswering env model s else s

/-- The "edit answers" button of the ANALYZING error view:
`setStage(AppStage.ANSWERING)` and nothing else. -/
def editAnswersStep (s : Session) : Session :=
  if s.stage = AppStage.ANALYZING then { s with stage := AppStage.ANSWERING } else s

/-- Typing in the refinement textarea (rendered in RESULT only). -/
def editAdditionalStep (t : String) (s : Session) : Session :=
  if s.stage = AppStage.RESULT then { s with additionalInput := t } else s

/-- `handleRefineAnalysis` (src/App.tsx lines 525-539): guarded by a nonempty
`additionalInput`; on success replace the analysis and clear the input; on
failure attach the error and keep the prior analysis.  Stage stays RESULT. -/
def refineStep (env : Option String) (model : Nat → UpstreamOutcome AnalysisResult)
    (s : Session) : Session :=
  if s.stage = AppStage.RESULT ∧ jsTrimIsEmpty s.additionalInput = false then
    match (analyzeDecisionCall env model).1 with
    | Except.ok r => { s with error := none, analysis := some r, additionalInput := "" }
    | Except.error e =>
      { s with error := some (handleErrorMsg e "심층 분석 중 문제가 발생했습니다.") }
  else s

/-- `switchToAlternative` (src/App.tsx lines 562-575): guarded by
`if (!analysis) return`; on success replace the analysis; on failure attach
the error and keep the prior analysis.  Stage stays RESULT. -/
def selectAltStep (env : Option String) (model : Nat → UpstreamOutcome AnalysisResult)
    (s : Session) : Session :=
  if s.stage = AppStage.RESULT ∧ s.analysis ≠ none then
    match (analyzeDecisionCall env model).1 with
    | Except.ok r => { s with error := none, analysis := some r }
    | Except.error e =>
      { s with error := some (handleErrorMsg e "대안 상세 분석 중 문제가 발생했습니다.") }
  else s

/-- `resetApp` (src/App.tsx lines 551-560): reinitialise every field. -/
def resetStep (_s : Session) : Session :=
  initialSession

/-- One user-triggered transition of the Flow Controller. -/
inductive FlowAction where
  | editTopic (t : String)
  | submit (env : Option String) (model : Nat → UpstreamOutcome (List Question))
  | answer (opt : String)
  | next (env : Option String) (model : Nat → UpstreamOutcome AnalysisResult)
  | prev
  | retryAnalysis (env : Option String) (model : Nat → UpstreamOutcome AnalysisResult)
  | editAnswers
  | editAdditional (t : String)
  | refine (env : Option String) (model : Nat → UpstreamOutcome AnalysisResult)
  | selectAlt (env : Option String) (model : Nat → UpstreamOutcome AnalysisResult)
  | reset

/-- The step function of the Flow Controller state machine. -/
def stepApp : FlowAction → Session → Session
  | FlowAction.editTopic t => editTopicStep t
  | FlowAction.submit env model => submitStep env model
  | FlowAction.answer opt => answerStep opt
  | FlowAction.next env model => nextStep env model
  | FlowAction.prev => prevStep
  | FlowAction.retryAnalysis env model => retryStep env model
  | FlowAction.editAnswers => editAnswersStep
  | FlowAction.editAdditional t => editAdditionalStep t
  | FlowAction.refine env model => refineStep env model
  | FlowAction.selectAlt env model => selectAltStep env model
  | FlowAction.reset => resetStep

/-- Sessions reachable from the initial state. -/
inductive ReachableSession : Session → Prop where
  | init : ReachableSession initialSession
  | step (a : FlowAction) (s : Session) :
      ReachableSession s → ReachableSession (stepApp a s)

/-! ## The currentIndex invariant -/

/-- In every stage that can only be reached through a successful generation
(ANSWERING, ANALYZING, RESULT), a nonempty question list bounds
`currentIndex`. -/
def IdxInv (s : Session) : Prop :=
  (s.stage = AppStage.ANSWERING ∨ s.stage = AppStage.ANALYZING ∨ s.stage = AppStage.RESULT) →
  0 < s.questions.length → s.currentIndex < s.questions.length

theorem finishAnswering_questions (env : Option String)
    (model : Nat → UpstreamOutcome AnalysisResult) (s : Session) :
    (finishAnswering env model s).questions = s.questions := by
  unfold finishAnswering
  split <;> rfl

theorem finishAnswering_currentIndex (env : Option String)
    (model : Nat → UpstreamOutcome AnalysisResult) (s : Session) :
    (finishAnswering env model s).currentIndex = s.currentIndex := by
  unfold finishAnswering
  split <;> rfl

theorem finishAnswering_answers (env : Option String)
    (model : Nat → UpstreamOutcome AnalysisResult) (s : Session) :
    (finishAnswering env model s).answers = s.answers := by
  unfold finishAnswering
  split <;> rfl

theorem finishAnswering_stage (env : Option String)
    (model : Nat → UpstreamOutcome AnalysisResult) (s : Session) :
    (finishAnswering env model s).stage = AppStage.RESULT
    ∨ (finishAnswering env model s).stage = AppStage.ANALYZING := by
  unfold finishAnswering
  split
  · exact Or.inl rfl
  · exact Or.inr rfl

theorem idxInv_finishAnswering (env : Option String)
    (model : Nat → UpstreamOutcome AnalysisResult) (s : Session)
    (h : s.currentIndex < s.questions.length ∨ s.questions.length = 0) :
    IdxInv (finishAnswering env model s) := by
  intro _ hlen
  rw [finishAnswering_questions] at hlen
  rw [finishAnswering_questions, finishAnswering_currentIndex]
  rcases h with h | h
  · exact h
  · omega

theorem idxInv_step (a : FlowAction) (s : Session) (h : IdxInv s) :
    IdxInv (stepApp a s) := by
  cases a with
  | editTopic t =>
    simp only [stepApp]
    unfold editTopicStep
    split
    · exact fun hst hlen => h hst hlen
    · exact h
  | submit env model =>
    simp only [stepApp]
    unfold submitStep
    split
    · rename_i hg
      split
      · intro _ hlen
        exact hlen
      · intro hst _
        rcases hst with hst | hst | hst <;> simp at hst
    · exact h
  | answer opt =>
    simp only [stepApp]
    unfold answerStep
    split
    · rename_i hg
      split
      · exact fun hst hlen => h hst hlen
      · exact h
    · exact h
  | next env model =>
    simp only [stepApp]
    unfold nextStep
    split
    · rename_i hg
      obtain ⟨hstage, hlen, -⟩ := hg
      split
      · rename_i hlt
        intro _ hlen2
        simp only at hlen2 ⊢
        omega
      · exact idxInv_finishAnswering env model s (Or.inl (h (Or.inl hstage) hlen))
    · exact h
  | prev =>
    simp only [stepApp]
    unfold prevStep
    split
    · rename_i hg
      obtain ⟨hstage, hlen⟩ := hg
      split
      · intro _ hlen2
        have := h (Or.inl hstage) hlen
        simp only at hlen2 ⊢
        omega
      · exact h
    · exact h
  | retryAnalysis env model =>
    simp only [stepApp]
    unfold retryStep
    split
    · rename_i hstage
      by_cases hl : 0 < s.questions.length
      · exact idxInv_finishAnswering env model s
          (Or.inl (h (Or.inr (Or.inl hstage)) hl))
      · exact idxInv_finishAnswering env model s (Or.inr (by omega))
    · exact h
  | editAnswers =>
    simp only [stepApp]
    unfold editAnswersStep
    split
    · rename_i hstage
      intro _ hlen
      exact h (Or.inr (Or.inl hstage)) hlen
    · exact h
  | editAdditional t =>
    simp only [stepApp]
    unfold editAdditionalStep
    split
    · exact fun hst hlen => h hst hlen
    · exact h
  | refine env model =>
    simp only [stepApp]
    unfold refineStep
    split
    · split
      · exact fun hst hlen => h hst hlen
      · exact fun hst hlen => h hst hlen
    · exact h
  | selectAlt env model =>
    simp only [stepApp]
    unfold selectAltStep
    split
    · split
      · exact fun hst hlen => h hst hlen
      · exact fun hst hlen => h hst hlen
    · exact h
  | reset =>
    simp only [stepApp]
    unfold resetStep
    intro _ hlen
    simp [initialSession] at hlen

theorem idxInv_reachable (s : Session) (h : ReachableSession s) : IdxInv s := by
  induction h with
  | init =>
    intro _ hlen
    simp [initialSession] at hlen
  | step a s _ ih => exact idxInv_step a s ih

/-! ## Claim C9: currentIndex stays inside the question list

The mechanism the claim describes is real (entry sets the index to 0, `next`
increments only below `length - 1`, `prev` decrements only above 0), but the
stated interval `[0, questions.length − 1]` is violated in the reachable
ANSWERING state produced by a successful generation whose parsed payload is
the empty array: there `currentIndex = 0` while the interval `[0, −1]` is
empty.  With a nonempty question list the invariant holds for every reachable
session. -/

/-- The reachable session obtained by submitting a topic against a model whose
parsed payload is the empty question array. -/
def emptyGenSession : Session :=
  stepApp (FlowAction.submit (some "k") (fun _ => UpstreamOutcome.payload []))
    (stepApp (FlowAction.editTopic "이직 여부") initialSession)

/-- C9 counterexample: `emptyGenSession` is reachable, its stage is ANSWERING,
and `currentIndex = 0` does not lie in `[0, questions.length − 1] = [0, −1]`. -/
theorem c9_empty_questions_ce :
    ReachableSession emptyGenSession
    ∧ emptyGenSession.stage = AppStage.ANSWERING
    ∧ emptyGenSession.questions.length = 0
    ∧ emptyGenSession.currentIndex = 0
    ∧ ¬ ((emptyGenSession.currentIndex : Int)
          ≤ (emptyGenSession.questions.length : Int) - 1) := by
  refine ⟨?_, rfl, rfl, rfl, by decide⟩
  exact ReachableSession.step _ _ (ReachableSession.step _ _ ReachableSession.init)

/-- C9 amended: in every reachable session whose stage is ANSWERING and whose
question list is nonempty, `currentIndex < questions.length` (and `≥ 0` since
it is a `Nat`); entering ANSWERING through a successful generation sets it to
0; `next` increments it exactly while `currentIndex < questions.length − 1`
and otherwise hands over to analysis; `prev` decrements it exactly while it is
positive and is a no-op at 0. -/
theorem c9_index_invariant (s : Session) (hr : ReachableSession s) :
    (s.stage = AppStage.ANSWERING → 0 < s.questions.length →
      s.currentIndex < s.questions.length)
    ∧ (∀ (env : Option String) (model : Nat → UpstreamOutcome (List Question))
        (qs : List Question),
        s.stage = AppStage.START → jsTrimIsEmpty s.topic = false →
        (generateQuestionsCall env model).1 = Except.ok qs →
        (stepApp (FlowAction.submit env model) s).stage = AppStage.ANSWERING
        ∧ (stepApp (FlowAction.submit env model) s).currentIndex = 0)
    ∧ (∀ (env : Option String) (model : Nat → UpstreamOutcome AnalysisResult),
        s.stage = AppStage.ANSWERING → 0 < s.questions.length →
        answerPresent s = true →
        (s.currentIndex < s.questions.length - 1 →
          (stepApp (FlowAction.next env model) s).currentIndex = s.currentIndex + 1
          ∧ (stepApp (FlowAction.next env model) s).stage = AppStage.ANSWERING)
        ∧ (s.currentIndex = s.questions.length - 1 →
          (stepApp (FlowAction.next env model) s).stage = AppStage.ANALYZING
          ∨ (stepApp (FlowAction.next env model) s).stage = AppStage.RESULT))
    ∧ (s.stage = AppStage.ANSWERING → 0 < s.questions.length →
        (0 < s.currentIndex →
          (stepApp FlowAction.prev s).currentIndex = s.currentIndex - 1)
        ∧ (s.currentIndex = 0 → stepApp FlowAction.prev s = s)) := by
  refine ⟨fun hst hlen => idxInv_reachable s hr (Or.inl hst) hlen, ?_, ?_, ?_⟩
  · intro env model qs hst htrim hq
    simp only [stepApp]
    unfold submitStep
    rw [if_pos ⟨hst, htrim⟩]
    simp [hq]
  · intro env model hst hlen hans
    have hidx : s.currentIndex < s.questions.length :=
      idxInv_reachable s hr (Or.inl hst) hlen
    constructor
    · intro hlt
      simp only [stepApp]
      unfold nextStep
      rw [if_pos ⟨hst, hlen, hans⟩, if_pos hlt]
      exact ⟨rfl, hst⟩
    · intro heq
      simp only [stepApp]
      unfold nextStep
      rw [if_pos ⟨hst, hlen, hans⟩, if_neg (by omega)]
      exact Or.symm (finishAnswering_stage env model s)
  · intro hst hlen
    constructor
    · intro hpos
      simp only [stepApp]
      unfold prevStep
      rw [if_pos ⟨hst, hlen⟩, if_pos hpos]
    · intro hzero
      simp only [stepApp]
      unfold prevStep
      rw [if_pos ⟨hst, hlen⟩, if_neg (by omega)]

/-- A reachable two-question ANSWERING session with the first question
answered, used to witness `c9_index_invariant`. -/
def twoQuestionSession : Session :=
  stepApp (FlowAction.answer "a")
    (stepApp (FlowAction.submit (some "k")
      (fun _ => UpstreamOutcome.payload
        [Question.mk 1 "q1" ["a", "b", "c"], Question.mk 2 "q2" ["a", "b", "c"]]))
      (stepApp (FlowAction.editTopic "topic") initialSession))

/-- Witness for `c9_index_invariant` on `twoQuestionSession`. -/
theorem c9_index_invariant_witness :
    twoQuestionSession.currentIndex < twoQuestionSession.questions.length
    ∧ (stepApp (FlowAction.next (some "k") (fun _ => UpstreamOutcome.blocked))
        twoQuestionSession).currentIndex = twoQuestionSession.currentIndex + 1
    ∧ (stepApp FlowAction.prev twoQuestionSession) = twoQuestionSession := by
  have hr : ReachableSession twoQuestionSession :=
    ReachableSession.step _ _ (ReachableSession.step _ _
      (ReachableSession.step _ _ ReachableSession.init))
  refine ⟨(c9_index_invariant twoQuestionSession hr).1 rfl (by decide),
    ((c9_index_invariant twoQuestionSession hr).2.2.1 (some "k")
      (fun _ => UpstreamOutcome.blocked) rfl (by decide) (by decide)).1 (by decide) |>.1,
    ((c9_index_invariant twoQuestionSession hr).2.2.2 rfl (by decide)).2 rfl⟩

/-! ## Claim C7: analysis failures keep the stage and the answers -/

/-- C7: when the analysis call fails, `finishAnswering` (both on first entry
and on retry from the ANALYZING error view) leaves the session in stage
ANALYZING — not START, not ANSWERING — with the answer map, the questions and
the topic untouched. -/
theorem c7_analysis_failure_keeps_state (env : Option String)
    (model : Nat → UpstreamOutcome AnalysisResult) (s : Session) (e : String)
    (hfail : (analyzeDecisionCall env model).1 = Except.error e) :
    (finishAnswering env model s).stage = AppStage.ANALYZING
    ∧ (finishAnswering env model s).answers = s.answers
    ∧ (finishAnswering env model s).questions = s.questions
    ∧ (finishAnswering env model s).topic = s.topic
    ∧ (s.stage = AppStage.ANALYZING →
        (stepApp (FlowAction.retryAnalysis env model) s).stage = AppStage.ANALYZING
        ∧ (stepApp (FlowAction.retryAnalysis env model) s).answers = s.answers) := by
  have hst : (finishAnswering env model s).stage = AppStage.ANALYZING := by
    unfold finishAnswering
    rw [hfail]
  refine ⟨hst, finishAnswering_answers env model s,
    finishAnswering_questions env model s, ?_, ?_⟩
  · unfold finishAnswering
    split <;> rfl
  · intro hs
    simp only [stepApp]
    unfold retryStep
    rw [if_pos hs]
    exact ⟨hst, finishAnswering_answers env model s⟩

/-- Witness for `c7_analysis_failure_keeps_state`: a blocked analysis response
(no text) fails, and the session entered from `twoQuestionSession`-like state
stays in ANALYZING with its answers intact. -/
theorem c7_analysis_failure_keeps_state_witness :
    (finishAnswering (some "k") (fun _ => UpstreamOutcome.blocked) twoQuestionSession).stage
      = AppStage.ANALYZING
    ∧ (finishAnswering (some "k") (fun _ => UpstreamOutcome.blocked)
        twoQuestionSession).answers = twoQuestionSession.answers := by
  have h := c7_analysis_failure_keeps_state (some "k") (fun _ => UpstreamOutcome.blocked)
    twoQuestionSession analyzeEmptyMsg rfl
  exact ⟨h.1, h.2.1⟩

/-! ## Claim C8: per-call credential resolution and fail-fast -/

/-- C8: both gateway operations take the credential as resolved at the moment
of the call (`createAI` runs inside each operation, so there is no
construction-time caching: in this embedding the environment is an argument of
each call and the outcome depends on nothing else).  When the credential is
absent, the literal `'undefined'`, empty, or whitespace-only, the call fails
with the missing-credential error after zero model attempts and zero backoff
delays — i.e. before any network attempt and before the retry loop — while
any call given a usable credential reaches the model at least once. -/
theorem c8_missing_credential (env : Option String)
    (gmodel : Nat → UpstreamOutcome (List Question))
    (amodel : Nat → UpstreamOutcome AnalysisResult)
    (h : credMissing env = true) :
    generateQuestionsCall env gmodel = (Except.error missingKeyMsg, 0, [])
    ∧ analyzeDecisionCall env amodel = (Except.error missingKeyMsg, 0, [])
    ∧ (∀ (env2 : Option String) (g2 : Nat → UpstreamOutcome (List Question)),
        credMissing env2 = false → 1 ≤ (generateQuestionsCall env2 g2).2.1)
    ∧ (∀ (env2 : Option String) (a2 : Nat → UpstreamOutcome AnalysisResult),
        credMissing env2 = false → 1 ≤ (analyzeDecisionCall env2 a2).2.1)
    ∧ credMissing none = true
    ∧ credMissing (some "") = true
    ∧ credMissing (some "undefined") = true
    ∧ credMissing (some "   ") = true := by
  refine ⟨?_, ?_, ?_, ?_, by decide, by decide, by decide, by decide⟩
  · simp [generateQuestionsCall, createAI, h]
  · simp [analyzeDecisionCall, createAI, h]
  · intro env2 g2 h2
    simp only [generateQuestionsCall, createAI, h2, Bool.false_eq_true, if_false,
      callWithRetry]
    exact retryGo_attempts_pos _ 3 0 2
  · intro env2 a2 h2
    simp only [analyzeDecisionCall, createAI, h2, Bool.false_eq_true, if_false,
      callWithRetry]
    exact retryGo_attempts_pos _ 3 0 2

/-- Witness for `c8_missing_credential`: with no key the call fails fast with
zero attempts; the very next call, now given the key "k2", reaches the model. -/
theorem c8_missing_credential_witness :
    generateQuestionsCall none (fun _ => UpstreamOutcome.blocked)
      = (Except.error missingKeyMsg, 0, [])
    ∧ 1 ≤ (generateQuestionsCall (some "k2") (fun _ => UpstreamOutcome.blocked)).2.1 := by
  have h := c8_missing_credential none (fun _ => UpstreamOutcome.blocked)
    (fun _ => UpstreamOutcome.blocked) rfl
  exact ⟨h.1, h.2.2.1 (some "k2") (fun _ => UpstreamOutcome.blocked) (by decide)⟩

/-! ## Claim C10: the answer action writes one key and nothing else -/

/-- C10: selecting an option while ANSWERING updates the answer map at exactly
the current question's id (overwriting any earlier selection) and changes
nothing else: every other key of the answer map and every other session field
(stage, topic, questions, currentIndex, analysis, error, additionalInput) is
unchanged. -/
theorem c10_answer_frame (s : Session) (opt : String) (q : Question)
    (hst : s.stage = AppStage.ANSWERING) (hlen : 0 < s.questions.length)
    (hq : s.questions.get? s.currentIndex = some q) :
    (stepApp (FlowAction.answer opt) s).answers q.id = some opt
    ∧ (∀ k, k ≠ q.id → (stepApp (FlowAction.answer opt) s).answers k = s.answers k)
    ∧ (stepApp (FlowAction.answer opt) s).stage = s.stage
    ∧ (stepApp (FlowAction.answer opt) s).topic = s.topic
    ∧ (stepApp (FlowAction.answer opt) s).questions = s.questions
    ∧ (stepApp (FlowAction.answer opt) s).currentIndex = s.currentIndex
    ∧ (stepApp (FlowAction.answer opt) s).analysis = s.analysis
    ∧ (stepApp (FlowAction.answer opt) s).error = s.error
    ∧ (stepApp (FlowAction.answer opt) s).additionalInput = s.additionalInput := by
  simp only [stepApp]
  unfold answerStep
  rw [if_pos ⟨hst, hlen⟩]
  simp only [hq]
  refine ⟨?_, ?_, by trivial, by trivial, by trivial, by trivial, by trivial,
    by trivial, by trivial⟩
  · simp [answersInsert]
  · intro k hk
    simp [answersInsert, hk]

/-- Witness for `c10_answer_frame` on a one-question session whose question id
is 5: answering writes key 5 and leaves key 4 (and the error field) alone. -/
theorem c10_answer_frame_witness :
    (stepApp (FlowAction.answer "x")
      (Session.mk AppStage.ANSWERING "t" [Question.mk 5 "q" ["x", "y", "z"]]
        (fun _ => none) 0 none none "")).answers 5 = some "x"
    ∧ (stepApp (FlowAction.answer "x")
      (Session.mk AppStage.ANSWERING "t" [Question.mk 5 "q" ["x", "y", "z"]]
        (fun _ => none) 0 none none "")).answers 4 = none := by
  have h := c10_answer_frame
    (Session.mk AppStage.ANSWERING "t" [Question.mk 5 "q" ["x", "y", "z"]]
      (fun _ => none) 0 none none "")
    "x" (Question.mk 5 "q" ["x", "y", "z"]) rfl (by decide) rfl
  exact ⟨h.1, h.2.1 4 (by decide)⟩
